import Mathlib

/-
  Verification of the OSorganicAI webhook-driven issue lifecycle.

  Shallow embedding of the orchestrator, agents and API wrappers:
    - api/webhooks.py                (signature verifier, event routing)
    - src/workflows/issue_handler.py (lifecycle orchestrator)
    - src/agents/product_owner.py    (requirements agent side effects)
    - src/agents/developer.py        (code agent / PR materialization)
    - src/utils/github_api.py        (VCS wrapper semantics)
    - src/utils/supabase_client.py   (store wrapper semantics)
    - src/models/issue_analysis.py   (data model)

  External collaborators (the LLM, the HMAC primitive, GitHub, Supabase)
  are modelled as parameters or environments; everything the repository
  itself computes is transcribed directly from the Python source.
-/

namespace OSOrganicAI

/-- Structured output of the requirements agent, from
src/models/issue_analysis.py (class IssueAnalysis).  Fields that feed only
prompt text (estimated_complexity, technical_considerations, dependencies,
estimated_effort_hours) are omitted; none of the control flow reads them. -/
structure IssueAnalysis where
  needs_clarification : Bool
  questions : List String
  refined_description : Option String
  is_complete : Bool
  suggested_labels : List String
  acceptance_criteria : List String
deriving DecidableEq, Repr

/-- Python str.split on the single character equals sign, from
signature.split in api/webhooks.py line 67.  Mirrors CPython semantics:
the empty string splits to one empty group, a trailing separator yields a
trailing empty group. -/
def splitOnEq : List Char → List (List Char)
  | [] => [[]]
  | c :: cs =>
    if c = '=' then [] :: splitOnEq cs
    else
      match splitOnEq cs with
      | [] => [[c]]
      | g :: gs => (c :: g) :: gs

/-- Signature verifier from api/webhooks.py (verify_github_signature).
The request body is a byte list, the header an optional character list
(None when the header is absent).  The HMAC-SHA256 primitive from the
Python hmac library is an external collaborator and enters as the
parameter mac, returning the hex digest of the given secret and payload;
hmac.compare_digest is equality on digests. -/
def verify_github_signature (mac : List Nat → List Nat → List Char)
    (payload : List Nat) (signature : Option (List Char)) (secret : List Nat) : Bool :=
  match signature with
  | none => false
  | some s =>
    if s.isEmpty then false
    else if ("sha256=".data.isPrefixOf s) = false then false
    else
      let expected := (splitOnEq s).getD 1 []
      let computed := mac secret payload
      computed == expected

theorem splitOnEq_no_eq (l : List Char) (h : ∀ c ∈ l, c ≠ '=') :
    splitOnEq l = [l] := by
  induction l with
  | nil => rfl
  | cons c cs ih =>
    have hc : c ≠ '=' := h c (List.mem_cons_self c cs)
    have hcs : ∀ x ∈ cs, x ≠ '=' := fun x hx => h x (List.mem_cons_of_mem c hx)
    simp [splitOnEq, hc, ih hcs]

theorem splitOnEq_append (p r : List Char) (h : ∀ c ∈ p, c ≠ '=') :
    splitOnEq (p ++ '=' :: r) = p :: splitOnEq r := by
  induction p with
  | nil => simp [splitOnEq]
  | cons c cs ih =>
    have hc : c ≠ '=' := h c (List.mem_cons_self c cs)
    have hcs : ∀ x ∈ cs, x ≠ '=' := fun x hx => h x (List.mem_cons_of_mem c hx)
    have := ih hcs
    simp [splitOnEq, hc, this]

theorem isPrefixOf_append_self (p l : List Char) : p.isPrefixOf (p ++ l) = true := by
  induction p with
  | nil => simp [List.isPrefixOf]
  | cons c cs ih => simp [List.isPrefixOf, ih]

theorem verify_github_signature_eval
    (mac : List Nat → List Nat → List Char) (payload secret : List Nat)
    (h : List Char) (hh : ∀ c ∈ h, c ≠ '=') :
    verify_github_signature mac payload (some ("sha256=".data ++ h)) secret
      = (mac secret payload == h) := by
  have hdata : "sha256=".data = ['s', 'h', 'a', '2', '5', '6', '='] := rfl
  have hsplit : splitOnEq ("sha256=".data ++ h)
      = ['s', 'h', 'a', '2', '5', '6'] :: splitOnEq h := by
    rw [hdata]
    have : (['s', 'h', 'a', '2', '5', '6', '='] : List Char) ++ h
        = ['s', 'h', 'a', '2', '5', '6'] ++ '=' :: h := by simp
    rw [this]
    exact splitOnEq_append ['s', 'h', 'a', '2', '5', '6'] h (by decide)
  have hone : splitOnEq h = [h] := splitOnEq_no_eq h hh
  simp only [verify_github_signature, hsplit, hone, isPrefixOf_append_self]
  simp [List.isEmpty]

/-- Claim C5: for every body and secret, the signature verifier rejects a
signature computed with a different secret, accepts the signature computed
with the correct secret (hex digest prefixed with sha256=), and rejects a
header missing that prefix or missing entirely.  The digest hypotheses say
that the external HMAC primitive returns hex text (no equals sign) and
that the two secrets yield different digests on this body. -/
theorem verify_github_signature_correct
    (mac : List Nat → List Nat → List Char) (body secret other : List Nat)
    (hhex : ∀ c ∈ mac secret body, c ≠ '=')
    (hhex2 : ∀ c ∈ mac other body, c ≠ '=')
    (hdiff : mac secret body ≠ mac other body) :
    verify_github_signature mac body (some ("sha256=".data ++ mac secret body)) secret = true
    ∧ verify_github_signature mac body (some ("sha256=".data ++ mac other body)) secret = false
    ∧ (∀ s, "sha256=".data.isPrefixOf s = false →
        verify_github_signature mac body (some s) secret = false)
    ∧ verify_github_signature mac body none secret = false := by
  refine ⟨?_, ?_, ?_, rfl⟩
  · rw [verify_github_signature_eval mac body secret _ hhex]
    simp
  · rw [verify_github_signature_eval mac body secret _ hhex2]
    exact beq_eq_false_iff_ne.mpr hdiff
  · intro s hs
    simp [verify_github_signature, hs]

/-- A concrete stand-in for the external HMAC hex-digest primitive, used
only to instantiate the signature-verifier theorem. -/
def macW : List Nat → List Nat → List Char :=
  fun s _ => if s = [1] then ['a', 'a'] else ['b', 'b']

/-- Witness for C5 at a concrete body, secret pair and forged header. -/
theorem verify_github_signature_correct_witness :
    verify_github_signature macW [7] (some ("sha256=".data ++ ['a', 'a'])) [1] = true
    ∧ verify_github_signature macW [7] (some ("sha256=".data ++ ['b', 'b'])) [1] = false
    ∧ verify_github_signature macW [7] (some "nosig".data) [1] = false
    ∧ verify_github_signature macW [7] none [1] = false := by
  have h := verify_github_signature_correct macW [7] [1] [2]
    (by decide) (by decide) (by decide)
  exact ⟨h.1, h.2.1, h.2.2.1 "nosig".data (by decide), h.2.2.2⟩

/-- Issue-visible side effect issued through the VCS wrapper
(src/utils/github_api.py).  Comment bodies are carried as structured
payloads; the markdown formatting applied by format_github_comment and the
body builders is presentation only and is not read back anywhere. -/
inductive CommentPayload where
  | clarifyingQuestions (questions : List String)
  | requirementsRefined (description : String) (criteria : List String)
deriving DecidableEq, Repr

inductive VcsEffect where
  | createComment (issue : Nat) (payload : CommentPayload)
  | addLabels (issue : Nat) (labels : List String)
  | removeLabel (issue : Nat) (label : String)
deriving DecidableEq, Repr

/-- Durable store operation issued through the Supabase wrapper
(src/utils/supabase_client.py).  insertAction records log_agent_action
with the given action_type. -/
inductive DbEffect where
  | insertConversation (issue_number : Nat) (repo : String)
  | updateStatus (conv : Nat) (status : String)
  | updateAnalysis (conv : Nat) (a : IssueAnalysis)
  | insertAction (kind : String)
deriving DecidableEq, Repr

/-- One row of the conversations table.  The turns counter comes from the
data model (ordered list of turns, modelled by its length); the source
never appends to it outside of create.  The analysis field is the stored
analysis column: none for NULL (as created), or some a once
update_conversation_analysis has written it — the wrapper stores
json.dumps(analysis), so the column then holds the JSON text of a, not an
object. -/
structure Conversation where
  id : Nat
  issue_id : Nat
  issue_number : Nat
  repo_full_name : String
  status : String
  analysis : Option IssueAnalysis
  turns : Nat
deriving DecidableEq, Repr

/-- Durable system state plus the ordered log of side effects issued so
far.  effects is the GitHub-visible trail, dbLog the store trail. -/
structure SysState where
  conversations : List Conversation
  effects : List VcsEffect
  dbLog : List DbEffect
  nextId : Nat
deriving DecidableEq, Repr

/-- supabase_client.get_conversation: select by issue number and repo,
first row or none. -/
def get_conversation (s : SysState) (issue_number : Nat) (repo : String) :
    Option Conversation :=
  s.conversations.find? fun c =>
    c.issue_number == issue_number && c.repo_full_name == repo

/-- base.BaseAgent.update_conversation_state: update_conversation_status
always, update_conversation_analysis only when an analysis is passed. -/
def update_conversation_state (s : SysState) (cid : Nat) (status : String)
    (analysis : Option IssueAnalysis) : SysState :=
  { s with
    conversations := s.conversations.map fun c =>
      if c.id == cid then
        { c with
          status := status,
          analysis := match analysis with | some a => some a | none => c.analysis }
      else c,
    dbLog := s.dbLog ++ [DbEffect.updateStatus cid status] ++
      (match analysis with
       | some a => [DbEffect.updateAnalysis cid a]
       | none => []) }

/-- product_owner.ProductOwnerAgent.ask_clarifying_questions: post the
questions as one comment, add the needs-clarification label, log the
questions_asked action. -/
def ask_clarifying_questions (s : SysState) (issue_number : Nat)
    (questions : List String) : SysState :=
  { s with
    effects := s.effects ++
      [VcsEffect.createComment issue_number (CommentPayload.clarifyingQuestions questions),
       VcsEffect.addLabels issue_number ["needs-clarification"]],
    dbLog := s.dbLog ++ [DbEffect.insertAction "questions_asked"] }

/-- github_api.remove_labels_from_issue: one removal per label, each
tolerating an absent label. -/
def remove_labels_from_issue (s : SysState) (issue : Nat)
    (labels : List String) : SysState :=
  { s with effects := s.effects ++ labels.map (VcsEffect.removeLabel issue) }

/-- github_api.add_labels_to_issue: a single add call carrying the whole
label list, duplicates included. -/
def add_labels_to_issue (s : SysState) (issue : Nat)
    (labels : List String) : SysState :=
  { s with effects := s.effects ++ [VcsEffect.addLabels issue labels] }

/-- product_owner.ProductOwnerAgent.mark_ready_for_development: post the
refined-requirements comment, remove needs-clarification, add the
suggested labels plus ready-for-dev, log the action. -/
def mark_ready_for_development (s : SysState) (issue_number : Nat)
    (refined_description : String)
    (acceptance_criteria suggested_labels : List String) : SysState :=
  let s1 := { s with
    effects := s.effects ++
      [VcsEffect.createComment issue_number
        (CommentPayload.requirementsRefined refined_description acceptance_criteria)] }
  let s2 := remove_labels_from_issue s1 issue_number ["needs-clarification"]
  let s3 := add_labels_to_issue s2 issue_number (suggested_labels ++ ["ready-for-dev"])
  { s3 with dbLog := s3.dbLog ++ [DbEffect.insertAction "marked_ready_for_dev"] }

/-- base.BaseAgent.get_or_create_conversation: look up by key, otherwise
insert a fresh row in status analyzing with an empty turn list. -/
def get_or_create_conversation (s : SysState) (issue_number issue_id : Nat)
    (repo : String) : Nat × SysState :=
  match get_conversation s issue_number repo with
  | some c => (c.id, s)
  | none =>
    (s.nextId,
     { s with
       conversations := s.conversations ++
         [⟨s.nextId, issue_id, issue_number, repo, "analyzing", none, 0⟩],
       dbLog := s.dbLog ++ [DbEffect.insertConversation issue_number repo],
       nextId := s.nextId + 1 })

/-- product_owner.ProductOwnerAgent.handle_issue_workflow.  The result of
the analyze_issue reasoning call is the analysis parameter (the LLM is an
external collaborator); analyze_issue itself logs issue_analyzed.  The
refined description falls back to the issue body when the analysis gives
none or an empty string (the Python or operator).  Returns the new state
and the status string stored on the conversation. -/
def handle_issue_workflow (analysis : IssueAnalysis)
    (issue_number issue_id : Nat) (issue_body repo : String)
    (s : SysState) : SysState × String :=
  let r := get_or_create_conversation s issue_number issue_id repo
  let s2 := { r.2 with dbLog := r.2.dbLog ++ [DbEffect.insertAction "issue_analyzed"] }
  let status := if analysis.needs_clarification then "needs_clarification" else "ready_for_dev"
  let s3 := update_conversation_state s2 r.1 status (some analysis)
  let s4 :=
    if analysis.needs_clarification then
      ask_clarifying_questions s3 issue_number analysis.questions
    else if analysis.is_complete then
      mark_ready_for_development s3 issue_number
        (match analysis.refined_description with
         | some d => if d = "" then issue_body else d
         | none => issue_body)
        analysis.acceptance_criteria analysis.suggested_labels
    else s3
  (s4, status)

/-- issue_handler.IssueWorkflowOrchestrator.handle_issue_comment.  The
analysis parameter is the result of the process_user_response reasoning
call, which logs user_response_processed; bot comments were already
filtered at the gateway.  Returns none when no conversation exists or the
conversation is not in needs_clarification. -/
def handle_issue_comment (analysis : IssueAnalysis) (issue_number : Nat)
    (comment_body repo : String) (s : SysState) : SysState × Option String :=
  match get_conversation s issue_number repo with
  | none => (s, none)
  | some conv =>
    if conv.status = "needs_clarification" then
      let s1 := { s with dbLog := s.dbLog ++ [DbEffect.insertAction "user_response_processed"] }
      let status := if analysis.is_complete then "ready_for_dev" else "needs_clarification"
      let s2 := update_conversation_state s1 conv.id status (some analysis)
      let s3 :=
        if analysis.needs_clarification then
          ask_clarifying_questions s2 issue_number analysis.questions
        else if analysis.is_complete then
          mark_ready_for_development s2 issue_number
            (analysis.refined_description.getD "") analysis.acceptance_criteria
            analysis.suggested_labels
        else s2
      (s3, some status)
    else (s, none)

/-- Outcome of a code-generation attempt, from
src/models/code_generation.py (CodeGenerationResult): PR number when one
was opened, terminal status string, captured error message. -/
structure CodeGenerationResult where
  pr_number : Option Nat
  status : String
  error_message : Option (List Char)
deriving DecidableEq, Repr

/-- issue_handler.IssueWorkflowOrchestrator.handle_label_added.  The
Developer Agent (generate plus materialize, an injected dependency in the
source) enters as the dev parameter; the result is an exception message or
the orchestrator return value.  Only the ready-for-dev label triggers and
a missing conversation returns none with no side effect.  When a
conversation row exists, line 268 reads the stored analysis column —
conversation.get applies its default only for an absent key, so it yields
the stored None for a NULL column, and an updated column holds the
json.dumps text written by update_conversation_analysis, a str — and line
269 then evaluates analysis.get, an attribute neither None nor str has,
so the read raises AttributeError in both cases before the requirements
check, the graceful no-requirements return None, or any Developer Agent
call can be reached. -/
def handle_label_added (dev : Nat → SysState → SysState × CodeGenerationResult)
    (issue_number : Nat) (label_name repo : String) (s : SysState) :
    Except String (SysState × Option CodeGenerationResult) :=
  if label_name = "ready-for-dev" then
    match get_conversation s issue_number repo with
    | none => Except.ok (s, none)
    | some conv =>
      match conv.analysis with
      | none =>
        Except.error "AttributeError: NoneType object has no attribute get"
      | some _ =>
        Except.error "AttributeError: str object has no attribute get"
  else Except.ok (s, none)

/-- Gateway answer for the labeled issues route: 200 success with PR info
when the orchestrator returns a result, 200 ignored when it returns None,
500 error when an exception escapes (api/webhooks.py lines 188 to 200 and
254 to 279). -/
inductive WebhookResponse where
  | success
  | ignored
  | error (message : String)
deriving DecidableEq, Repr

/-- The labeled branch of api/webhooks.py handle_issues_event together
with the outer try/except of github_webhook: an escaping exception leaves
the state as it was before the call (nothing was committed first) and is
answered with a 500 error. -/
def handle_issues_event_labeled
    (dev : Nat → SysState → SysState × CodeGenerationResult)
    (issue_number : Nat) (label_name repo : String) (s : SysState) :
    SysState × WebhookResponse :=
  match handle_label_added dev issue_number label_name repo s with
  | Except.ok (s1, some _) => (s1, WebhookResponse.success)
  | Except.ok (s1, none) => (s1, WebhookResponse.ignored)
  | Except.error m => (s, WebhookResponse.error m)

/-- One inbound webhook delivery, from the gateway headers and payload
(api/webhooks.py github_webhook and the three event handlers). -/
structure WebhookEvent where
  delivery_id : String
  event_type : String
  action : String
  issue_number : Nat
  issue_id : Nat
  issue_body : String
  comment_body : String
  comment_is_bot : Bool
  label_name : String
  repo : String
deriving DecidableEq, Repr

/-- api/webhooks.py github_webhook routing, after signature verification:
issues opened and labeled, issue_comment created with the bot filter.  The
delivery identifier is read for logging only; no dedup store is consulted
before dispatching, which is visible below in that the field
delivery_id is never inspected. -/
def github_webhook (analysis : IssueAnalysis)
    (dev : Nat → SysState → SysState × CodeGenerationResult)
    (e : WebhookEvent) (s : SysState) : SysState :=
  if e.event_type = "issues" then
    if e.action = "opened" then
      (handle_issue_workflow analysis e.issue_number e.issue_id e.issue_body e.repo s).1
    else if e.action = "labeled" then
      (handle_issues_event_labeled dev e.issue_number e.label_name e.repo s).1
    else s
  else if e.event_type = "issue_comment" then
    if e.comment_is_bot then s
    else if e.action = "created" then
      (handle_issue_comment analysis e.issue_number e.comment_body e.repo s).1
    else s
  else s

/-- Number of issue comments posted so far. -/
def commentCount (s : SysState) : Nat :=
  (s.effects.filter fun e =>
    match e with
    | VcsEffect.createComment _ _ => true
    | _ => false).length

def conversationCount (s : SysState) : Nat := s.conversations.length

/-- Number of requirements-agent invocations recorded so far: each call to
process_user_response logs exactly one user_response_processed action. -/
def requirementsAgentInvocations (s : SysState) : Nat :=
  (s.dbLog.filter fun d => d == DbEffect.insertAction "user_response_processed").length

/-- All labels the handlers have asked GitHub to add to the given issue,
in order, duplicates preserved. -/
def labelsAddedTo (s : SysState) (issue : Nat) : List String :=
  (s.effects.filterMap fun e =>
    match e with
    | VcsEffect.addLabels i ls => if i == issue then some ls else none
    | _ => none).flatten

def removeLabelCount (s : SysState) (issue : Nat) (label : String) : Nat :=
  (s.effects.filter fun e => e == VcsEffect.removeLabel issue label).length

/-- A requirements-agent reply that asks one clarifying question. -/
def exampleAnalysis : IssueAnalysis :=
  ⟨true, ["What payment methods should be supported?"], none, false, [], []⟩

def emptyState : SysState := ⟨[], [], [], 0⟩

/-- An issues opened delivery for issue 42 with a fixed delivery id. -/
def openedEvent : WebhookEvent :=
  ⟨"delivery-1", "issues", "opened", 42, 100, "Add cart", "", false, "", "org/repo"⟩

/-- A developer agent that performs nothing, for instantiations where the
code agent path is not exercised. -/
def devNoop : Nat → SysState → SysState × CodeGenerationResult :=
  fun _ s => (s, ⟨none, "failed", none⟩)

/-- Counterexample to C1: redelivering the identical issues opened event
with the same delivery identifier posts a second clarification comment
(comment count goes from 1 to 2), so processing is not deduplicated by
delivery identifier before side effects; only the second Conversation is
prevented (by get-or-create on the issue key, not by the delivery id). -/
theorem cex_redelivery_posts_second_comment :
    commentCount (github_webhook exampleAnalysis devNoop openedEvent emptyState) = 1
    ∧ commentCount (github_webhook exampleAnalysis devNoop openedEvent
        (github_webhook exampleAnalysis devNoop openedEvent emptyState)) = 2
    ∧ conversationCount (github_webhook exampleAnalysis devNoop openedEvent
        (github_webhook exampleAnalysis devNoop openedEvent emptyState)) = 1 := by
  decide

/-- Claim C1, corrected.  The source performs no delivery-identifier
deduplication: the webhook handler never inspects the delivery id (last
conjunct), so redelivering an identical issues opened event re-runs the
whole workflow.  A second Conversation is still prevented, but only by
get-or-create on the (issue number, repository) key; when the analysis
asks for clarification the redelivery posts one more comment. -/
theorem webhook_redelivery_not_deduplicated
    (A : IssueAnalysis) (dev : Nat → SysState → SysState × CodeGenerationResult)
    (e : WebhookEvent) (s : SysState)
    (he : e.event_type = "issues") (ha : e.action = "opened")
    (hn : A.needs_clarification = true)
    (hc : (get_conversation s e.issue_number e.repo).isSome = true) :
    conversationCount (github_webhook A dev e s) = conversationCount s
    ∧ commentCount (github_webhook A dev e s) = commentCount s + 1
    ∧ (∀ d1 d2, github_webhook A dev { e with delivery_id := d1 } s
        = github_webhook A dev { e with delivery_id := d2 } s) := by
  cases hfind : get_conversation s e.issue_number e.repo with
  | none => rw [hfind] at hc; simp at hc
  | some c =>
    refine ⟨?_, ?_, ?_⟩
    · simp [github_webhook, he, ha, handle_issue_workflow, get_or_create_conversation,
        hfind, hn, update_conversation_state, ask_clarifying_questions,
        conversationCount]
    · simp [github_webhook, he, ha, handle_issue_workflow, get_or_create_conversation,
        hfind, hn, update_conversation_state, ask_clarifying_questions,
        commentCount, List.filter_append]
    · intro d1 d2
      simp [github_webhook]

/-- A state already holding the Conversation for issue 42 of org/repo. -/
def stateWithConversation : SysState :=
  ⟨[⟨0, 100, 42, "org/repo", "needs_clarification", none, 0⟩], [], [], 1⟩

/-- Witness for the corrected C1 at a concrete redelivered event. -/
theorem webhook_redelivery_not_deduplicated_witness :
    conversationCount (github_webhook exampleAnalysis devNoop openedEvent stateWithConversation)
      = conversationCount stateWithConversation
    ∧ commentCount (github_webhook exampleAnalysis devNoop openedEvent stateWithConversation)
      = commentCount stateWithConversation + 1 := by
  have h := webhook_redelivery_not_deduplicated exampleAnalysis devNoop openedEvent
    stateWithConversation rfl rfl rfl (by decide)
  exact ⟨h.1, h.2.1⟩

/-- A needs_clarification conversation for issue 42 with n prior turns. -/
def convWithTurns (n : Nat) : Conversation :=
  ⟨0, 100, 42, "org/repo", "needs_clarification", none, n⟩

def stateWithTurns (n : Nat) : SysState := ⟨[convWithTurns n], [], [], 1⟩

/-- Counterexample to C3: no maximum turn count exists.  For every
candidate bound B there is a conversation with more than B clarification
turns on which processing a further non-bot comment still invokes the
Requirements Agent (rather than leaving the invocation count unchanged
and forcing a terminal outcome). -/
theorem cex_no_turn_bound :
    ¬ ∃ B : Nat, ∀ n : Nat, B < n →
      requirementsAgentInvocations
          (handle_issue_comment exampleAnalysis 42 "answer" "org/repo" (stateWithTurns n)).1
        = requirementsAgentInvocations (stateWithTurns n) := by
  rintro ⟨B, h⟩
  have hB := h (B + 1) (Nat.lt_succ_self B)
  simp [handle_issue_comment, get_conversation, stateWithTurns, convWithTurns,
    requirementsAgentInvocations, update_conversation_state, ask_clarifying_questions,
    exampleAnalysis, List.filter_append] at hB

/-- Claim C3, corrected.  The NEEDS_CLARIFICATION loop is unbounded in the
source: whatever the number of prior turns on the conversation, a further
non-bot comment invokes the Requirements Agent exactly once more, and the
resulting status is again needs_clarification or ready_for_dev — no
needs-manual-intervention outcome exists anywhere in the code. -/
theorem clarification_loop_unbounded_in_source
    (A : IssueAnalysis) (issue : Nat) (cb repo : String) (s : SysState) (c : Conversation)
    (hfind : get_conversation s issue repo = some c)
    (hst : c.status = "needs_clarification") :
    requirementsAgentInvocations (handle_issue_comment A issue cb repo s).1
      = requirementsAgentInvocations s + 1
    ∧ ((handle_issue_comment A issue cb repo s).2 = some "needs_clarification"
       ∨ (handle_issue_comment A issue cb repo s).2 = some "ready_for_dev") := by
  cases hn : A.needs_clarification <;> cases hcm : A.is_complete <;>
    simp [handle_issue_comment, hfind, hst, hn, hcm, requirementsAgentInvocations,
      update_conversation_state, ask_clarifying_questions, mark_ready_for_development,
      remove_labels_from_issue, add_labels_to_issue, List.filter_append]

/-- Witness for the corrected C3 at a conversation with five prior turns. -/
theorem clarification_loop_unbounded_in_source_witness :
    requirementsAgentInvocations
        (handle_issue_comment exampleAnalysis 42 "answer" "org/repo" (stateWithTurns 5)).1
      = requirementsAgentInvocations (stateWithTurns 5) + 1
    ∧ ((handle_issue_comment exampleAnalysis 42 "answer" "org/repo" (stateWithTurns 5)).2
        = some "needs_clarification"
       ∨ (handle_issue_comment exampleAnalysis 42 "answer" "org/repo" (stateWithTurns 5)).2
        = some "ready_for_dev") :=
  clarification_loop_unbounded_in_source exampleAnalysis 42 "answer" "org/repo"
    (stateWithTurns 5) (convWithTurns 5) (by decide) rfl

/-- In-memory conversation state from src/models/issue_analysis.py (class
ConversationState); turn list and timestamps omitted, no claim reads
them. -/
structure ConversationState where
  issue_id : Nat
  issue_number : Nat
  repo_full_name : String
  status : String
  current_analysis : Option IssueAnalysis
deriving DecidableEq, Repr

/-- ConversationState.update_analysis from src/models/issue_analysis.py:
derives the status from the analysis flags, mapping the
neither-complete-nor-clarifying case to analyzing. -/
def ConversationState.update_analysis (cs : ConversationState) (a : IssueAnalysis) :
    ConversationState :=
  { cs with
    current_analysis := some a,
    status :=
      if a.is_complete then "ready_for_dev"
      else if a.needs_clarification then "needs_clarification"
      else "analyzing" }

/-- An analysis that neither requests clarification nor is complete. -/
def silentAnalysis : IssueAnalysis := ⟨false, [], none, false, [], []⟩

/-- Counterexample to C6: on an analysis with needs_clarification and
is_complete both false, the new-issue workflow persists the status
ready_for_dev, not a still-analyzing state (the side-effect half of the
claim does hold: no comment or label operation is issued). -/
theorem cex_not_still_analyzing_status :
    (handle_issue_workflow silentAnalysis 42 100 "Add cart" "org/repo" emptyState).2
      = "ready_for_dev"
    ∧ ((handle_issue_workflow silentAnalysis 42 100 "Add cart" "org/repo" emptyState).1.conversations.map
        Conversation.status) = ["ready_for_dev"]
    ∧ (handle_issue_workflow silentAnalysis 42 100 "Add cart" "org/repo" emptyState).1.effects
      = [] := by
  decide

/-- Claim C6, corrected.  When the analysis is neither complete nor
requesting clarification, no issue-visible side effect is produced —
but the persisted status is not a still-analyzing state: the new-issue
workflow stores ready_for_dev, the comment workflow stores
needs_clarification; only the unused model helper
ConversationState.update_analysis maps this case to analyzing. -/
theorem neither_complete_nor_clarifying
    (A : IssueAnalysis) (hn : A.needs_clarification = false) (hcm : A.is_complete = false)
    (issue iid : Nat) (body cb repo : String) (s : SysState) (cs : ConversationState) :
    (handle_issue_workflow A issue iid body repo s).1.effects = s.effects
    ∧ (handle_issue_workflow A issue iid body repo s).2 = "ready_for_dev"
    ∧ (handle_issue_comment A issue cb repo s).1.effects = s.effects
    ∧ ((handle_issue_comment A issue cb repo s).2 = none
       ∨ (handle_issue_comment A issue cb repo s).2 = some "needs_clarification")
    ∧ (cs.update_analysis A).status = "analyzing" := by
  refine ⟨?_, ?_, ?_, ?_, ?_⟩
  · cases hfind : get_conversation s issue repo with
    | none =>
      simp [handle_issue_workflow, get_or_create_conversation, hfind, hn, hcm,
        update_conversation_state]
    | some c =>
      simp [handle_issue_workflow, get_or_create_conversation, hfind, hn, hcm,
        update_conversation_state]
  · simp [handle_issue_workflow, hn]
  · cases hfind : get_conversation s issue repo with
    | none => simp [handle_issue_comment, hfind]
    | some c =>
      by_cases hs : c.status = "needs_clarification"
      · simp [handle_issue_comment, hfind, hs, hn, hcm, update_conversation_state]
      · simp [handle_issue_comment, hfind, hs]
  · cases hfind : get_conversation s issue repo with
    | none => simp [handle_issue_comment, hfind]
    | some c =>
      by_cases hs : c.status = "needs_clarification"
      · simp [handle_issue_comment, hfind, hs, hcm]
      · simp [handle_issue_comment, hfind, hs]
  · simp [ConversationState.update_analysis, hn, hcm]

/-- Witness for the corrected C6 on the concrete silent analysis. -/
theorem neither_complete_nor_clarifying_witness :
    (handle_issue_workflow silentAnalysis 42 100 "Add cart" "org/repo" emptyState).1.effects
      = emptyState.effects
    ∧ (handle_issue_workflow silentAnalysis 42 100 "Add cart" "org/repo" emptyState).2
      = "ready_for_dev"
    ∧ (ConversationState.update_analysis ⟨100, 42, "org/repo", "analyzing", none⟩
        silentAnalysis).status = "analyzing" := by
  have h := neither_complete_nor_clarifying silentAnalysis rfl rfl 42 100
    "Add cart" "answer" "org/repo" emptyState ⟨100, 42, "org/repo", "analyzing", none⟩
  exact ⟨h.1, h.2.1, h.2.2.2.2⟩

/-- A complete analysis whose suggested labels already contain
ready-for-dev. -/
def completeAnalysisDup : IssueAnalysis :=
  ⟨false, [], some "Implement cart with session persistence", true, ["ready-for-dev"], ["Users can add items"]⟩

/-- Counterexample to C7: when ready-for-dev already appears among the
suggested labels, the handler asks GitHub to add it twice —
mark_ready_for_development concatenates suggested_labels with
ready-for-dev without deduplication. -/
theorem cex_ready_for_dev_added_twice :
    (labelsAddedTo (handle_issue_comment completeAnalysisDup 42 "answer" "org/repo"
        stateWithConversation).1 42).count "ready-for-dev" = 2 := by
  decide

/-- Claim C7, corrected.  An analysis with isComplete true (and
needsClarification false, since the clarification branch takes priority)
transitions the conversation to ready_for_dev, issues exactly one removal
of needs-clarification, and adds the suggested labels plus ready-for-dev
in one call without deduplication — each label exactly once only when the
suggested labels are duplicate-free and do not already contain
ready-for-dev. -/
theorem complete_analysis_marks_ready
    (A : IssueAnalysis) (issue : Nat) (cb repo : String) (s : SysState) (c : Conversation)
    (hfind : get_conversation s issue repo = some c)
    (hst : c.status = "needs_clarification")
    (hcm : A.is_complete = true) (hn : A.needs_clarification = false)
    (hnd : A.suggested_labels.Nodup) (hmem : "ready-for-dev" ∉ A.suggested_labels) :
    (handle_issue_comment A issue cb repo s).2 = some "ready_for_dev"
    ∧ removeLabelCount (handle_issue_comment A issue cb repo s).1 issue "needs-clarification"
      = removeLabelCount s issue "needs-clarification" + 1
    ∧ labelsAddedTo (handle_issue_comment A issue cb repo s).1 issue
      = labelsAddedTo s issue ++ (A.suggested_labels ++ ["ready-for-dev"])
    ∧ ∀ l ∈ A.suggested_labels ++ ["ready-for-dev"],
        (A.suggested_labels ++ ["ready-for-dev"]).count l = 1 := by
  have hnodup : (A.suggested_labels ++ ["ready-for-dev"]).Nodup := by
    rw [List.nodup_append]
    refine ⟨hnd, List.nodup_singleton _, ?_⟩
    intro x hx hy
    simp only [List.mem_singleton] at hy
    subst hy
    exact hmem hx
  refine ⟨?_, ?_, ?_, fun l hl => List.count_eq_one_of_mem hnodup hl⟩
  · simp [handle_issue_comment, hfind, hst, hcm, hn]
  · simp [handle_issue_comment, hfind, hst, hcm, hn, removeLabelCount,
      update_conversation_state, mark_ready_for_development,
      remove_labels_from_issue, add_labels_to_issue, List.filter_append]
  · simp [handle_issue_comment, hfind, hst, hcm, hn, labelsAddedTo,
      update_conversation_state, mark_ready_for_development,
      remove_labels_from_issue, add_labels_to_issue, List.filterMap_append]

/-- A complete analysis with one fresh suggested label. -/
def completeAnalysis : IssueAnalysis :=
  ⟨false, [], some "Implement cart with session persistence", true, ["feature"], ["Users can add items"]⟩

/-- Witness for the corrected C7 at a concrete complete analysis. -/
theorem complete_analysis_marks_ready_witness :
    (handle_issue_comment completeAnalysis 42 "answer" "org/repo" stateWithConversation).2
      = some "ready_for_dev"
    ∧ labelsAddedTo (handle_issue_comment completeAnalysis 42 "answer" "org/repo"
        stateWithConversation).1 42
      = labelsAddedTo stateWithConversation 42 ++ (["feature"] ++ ["ready-for-dev"]) := by
  have h := complete_analysis_marks_ready completeAnalysis 42 "answer" "org/repo"
    stateWithConversation ⟨0, 100, 42, "org/repo", "needs_clarification", none, 0⟩
    (by decide) rfl rfl rfl (by decide) (by decide)
  exact ⟨h.1, h.2.2.1⟩

/-- Claim C10, evaluated at the failing input.  The source means to
answer the event as ignored when it cannot trigger development — the
unreachable warning branch (No refined requirements found, cannot trigger
dev) followed by return None documents that intent — but whenever a
Conversation row exists the stored-analysis read raises first, for every
possible Developer Agent: a ready-for-dev label on issue 42 whose row has
a NULL analysis column is answered with a 500 AttributeError response,
the state unchanged, the Code Agent never invoked, no record created.
Only the no-Conversation half behaves as claimed (ignored, no effects). -/
theorem label_added_crashes_on_stored_analysis :
    (∀ dev, handle_issues_event_labeled dev 42 "ready-for-dev" "org/repo" stateWithConversation
      = (stateWithConversation,
         WebhookResponse.error "AttributeError: NoneType object has no attribute get"))
    ∧ (∀ dev, handle_issues_event_labeled dev 42 "ready-for-dev" "org/repo" emptyState
      = (emptyState, WebhookResponse.ignored)) := by
  constructor <;> (intro dev; rfl)

/-- Progress of one delivery execution of handle_issue_comment through its
database interaction (issue_handler.py lines 141 to 174): read the
conversation row, then, if the read saw needs_clarification, commit a
status update.  The deployment is one independent execution context per
delivery (no shared memory), so cross-delivery interleaving happens at
the store. -/
inductive ExecPhase where
  | ready
  | readDone (observed : String)
  | finished
deriving DecidableEq, Repr

/-- Shared store plus two in-flight executions for the same (repository,
issue) key.  commits counts committed status transitions
(update_conversation_status calls). -/
structure RaceState where
  db_status : String
  execA : ExecPhase
  execB : ExecPhase
  commits : Nat
deriving DecidableEq, Repr

/-- One atomic store access of an execution whose analysis outcome has
is_complete given: the read (get_conversation), or the read-guarded
write (update to ready_for_dev when complete, back to needs_clarification
otherwise), exactly the bare read-then-write of the source. -/
def execStep (is_complete : Bool) (p : ExecPhase) (db : String) (commits : Nat) :
    ExecPhase × String × Nat :=
  match p with
  | ExecPhase.ready => (ExecPhase.readDone db, db, commits)
  | ExecPhase.readDone observed =>
    if observed = "needs_clarification" then
      (ExecPhase.finished,
       (if is_complete then "ready_for_dev" else "needs_clarification"),
       commits + 1)
    else
      (ExecPhase.finished, db, commits)
  | ExecPhase.finished => (ExecPhase.finished, db, commits)

/-- Scheduler step: true advances execution A, false advances B. -/
def raceStep (ca cb : Bool) (r : RaceState) (who : Bool) : RaceState :=
  if who then
    let t := execStep ca r.execA r.db_status r.commits
    { r with execA := t.1, db_status := t.2.1, commits := t.2.2 }
  else
    let t := execStep cb r.execB r.db_status r.commits
    { r with execB := t.1, db_status := t.2.1, commits := t.2.2 }

def raceRun (ca cb : Bool) (r : RaceState) : List Bool → RaceState
  | [] => r
  | w :: ws => raceRun ca cb (raceStep ca cb r w) ws

/-- Both executions start before the read, over a conversation in
needs_clarification. -/
def raceInit : RaceState :=
  ⟨"needs_clarification", ExecPhase.ready, ExecPhase.ready, 0⟩

/-- Counterexample to C2: under the interleaving read-A, read-B, write-A,
write-B both executions pass the status guard and both commit a status
transition (two commits), so it is not the case that exactly one
transition is committed while the other waits or fails cleanly. -/
theorem cex_both_executions_commit :
    (raceRun true true raceInit [true, false, true, false]).commits = 2 := by
  decide

/-- Claim C2, corrected.  The source protects the read-modify-write with
no lock and no version check: when the two executions are serialized the
loser observes the committed transition and backs off (one commit), but
under the interleaving where both read before either writes, both commit
— for every combination of analysis outcomes of the two executions. -/
theorem bare_read_modify_write_race (ca cb : Bool) :
    (raceRun true cb raceInit [true, true, false, false]).commits = 1
    ∧ (raceRun ca cb raceInit [true, false, true, false]).commits = 2 := by
  cases ca <;> cases cb <;> exact ⟨by decide, by decide⟩

/-- Structured output of the code-generation reasoning call, from
src/models/code_generation.py (class CodeGeneration); file entries are
carried by path (contents and commit messages are opaque payload). -/
structure CodeGeneration where
  branch_name : String
  files_to_create : List String
  test_files : List String
  pr_title : String
  pr_description : List Char
deriving DecidableEq, Repr

/-- One operation of the PR materialization trace: the VCS calls of
developer.create_pull_request together with the store calls it issues, in
program order.  openPR records a successfully created pull request. -/
inductive PrStep where
  | checkBranch (branch : String)
  | createBranch (branch : String)
  | getContents (path branch : String)
  | updateFile (path branch : String)
  | createFile (path branch : String)
  | openPR (title : String) (head base : String)
  | getPR (n : Nat)
  | editPRBody (n : Nat) (body : List Char)
  | insertCodeGen (pr : Option Nat) (status : String)
  | updateCodeGen (status : String) (err : Option (List Char))
  | insertAction (kind : String)
deriving DecidableEq, Repr

/-- GitHub environment for one materialization run: which branches and
files already exist, which calls raise (carrying the raised message), and
the number GitHub assigns to the new pull request. -/
structure VcsEnv where
  branch_exists : String → Bool
  file_exists : String → String → Bool
  write_error : String → Option (List Char)
  branch_error : Option (List Char)
  pr_error : Option (List Char)
  pr_number : Nat

/-- github_api.create_or_update_file: read the existing content first,
update when present, create on 404.  Returns the emitted trace and the
raised error, if any. -/
def create_or_update_file (env : VcsEnv) (path branch : String) :
    List PrStep × Option (List Char) :=
  match env.write_error path with
  | some e => ([PrStep.getContents path branch], some e)
  | none =>
    if env.file_exists path branch then
      ([PrStep.getContents path branch, PrStep.updateFile path branch], none)
    else
      ([PrStep.getContents path branch, PrStep.createFile path branch], none)

/-- The file-commit loops of developer.create_pull_request (lines 340 to
357): write each file in order, stopping at the first raised error. -/
def commit_files (env : VcsEnv) (branch : String) :
    List String → List PrStep × Option (List Char)
  | [] => ([], none)
  | p :: rest =>
    match create_or_update_file env p branch with
    | (ops, some e) => (ops, some e)
    | (ops, none) =>
      let r := commit_files env branch rest
      (ops ++ r.1, r.2)

/-- Python "Closes #N". -/
def closes_text (issue_number : Nat) : List Char :=
  ("Closes #" ++ toString issue_number).data

/-- Python substring containment (the in operator on str). -/
def containsSub (needle : List Char) : List Char → Bool
  | [] => needle.isEmpty
  | c :: t => needle.isPrefixOf (c :: t) || containsSub needle t

/-- github_api.link_issue_to_pr: read the PR, append "Closes #N" to its
body only when that text is not already present. -/
def link_issue_to_pr (pr_number issue_number : Nat)
    (pr_body : List Char) : List PrStep :=
  PrStep.getPR pr_number ::
    (if containsSub (closes_text issue_number) pr_body then []
     else [PrStep.editPRBody pr_number (pr_body ++ "\n\n".data ++ closes_text issue_number)])

/-- The trace of the except branch of developer.create_pull_request
(lines 411 to 442): insert a failed record, then update it once with the
captured error message. -/
def failSteps (e : List Char) : List PrStep :=
  [PrStep.insertCodeGen none "failed", PrStep.updateCodeGen "failed" (some e)]

def failResult (e : List Char) : CodeGenerationResult := ⟨none, "failed", some e⟩

/-- The branch step of developer.create_pull_request lines 334 to 337:
existence check first, creation only when absent. -/
def branchSteps (env : VcsEnv) (branch : String) : List PrStep :=
  if env.branch_exists branch then [PrStep.checkBranch branch]
  else [PrStep.checkBranch branch, PrStep.createBranch branch]

/-- developer.DeveloperAgent.create_pull_request: create the branch when
absent, commit implementation files then test files, open the pull
request, link the issue, then insert the pr_created record and log the
action; any raised error diverts to the except branch, which records the
failure.  Returns the full operation trace and the result. -/
def create_pull_request (env : VcsEnv) (issue_number : Nat) (g : CodeGeneration) :
    List PrStep × CodeGenerationResult :=
  match (if env.branch_exists g.branch_name then none else env.branch_error) with
  | some e => (branchSteps env g.branch_name ++ failSteps e, failResult e)
  | none =>
    match commit_files env g.branch_name g.files_to_create with
    | (fsteps, some e) => (branchSteps env g.branch_name ++ fsteps ++ failSteps e, failResult e)
    | (fsteps, none) =>
      match commit_files env g.branch_name g.test_files with
      | (tsteps, some e) =>
        (branchSteps env g.branch_name ++ fsteps ++ tsteps ++ failSteps e, failResult e)
      | (tsteps, none) =>
        match env.pr_error with
        | some e =>
          (branchSteps env g.branch_name ++ fsteps ++ tsteps ++ failSteps e, failResult e)
        | none =>
          (branchSteps env g.branch_name ++ fsteps ++ tsteps
            ++ [PrStep.openPR g.pr_title g.branch_name "main"]
            ++ link_issue_to_pr env.pr_number issue_number g.pr_description
            ++ [PrStep.insertCodeGen (some env.pr_number) "pr_created",
                PrStep.insertAction "pr_created"],
           ⟨some env.pr_number, "pr_created", none⟩)

def PrStep.isOpenPR : PrStep → Bool
  | PrStep.openPR _ _ _ => true
  | _ => false

def PrStep.isInsertRecord : PrStep → Bool
  | PrStep.insertCodeGen _ _ => true
  | _ => false

def PrStep.isUpdateRecord : PrStep → Bool
  | PrStep.updateCodeGen _ _ => true
  | _ => false

/-- The code-generation record rows inserted along a trace. -/
def recordInserts (steps : List PrStep) : List PrStep :=
  steps.filter PrStep.isInsertRecord

def recordUpdates (steps : List PrStep) : List PrStep :=
  steps.filter PrStep.isUpdateRecord

theorem commit_files_filter_not_file (env : VcsEnv) (branch : String)
    (files : List String) (p : PrStep → Bool)
    (hg : ∀ a b, p (PrStep.getContents a b) = false)
    (hu : ∀ a b, p (PrStep.updateFile a b) = false)
    (hc : ∀ a b, p (PrStep.createFile a b) = false) :
    (commit_files env branch files).1.filter p = [] := by
  induction files with
  | nil => rfl
  | cons f rest ih =>
    cases hw : env.write_error f with
    | some e => simp [commit_files, create_or_update_file, hw, hg]
    | none =>
      by_cases hf : env.file_exists f branch <;>
        simp [commit_files, create_or_update_file, hw, hf, List.filter_append, hg, hu, hc, ih]

theorem branchSteps_filter (env : VcsEnv) (b : String) (p : PrStep → Bool)
    (h1 : ∀ a, p (PrStep.checkBranch a) = false)
    (h2 : ∀ a, p (PrStep.createBranch a) = false) :
    (branchSteps env b).filter p = [] := by
  by_cases hb : env.branch_exists b <;> simp [branchSteps, hb, h1, h2]

theorem link_issue_to_pr_filter (n i : Nat) (body : List Char) (p : PrStep → Bool)
    (h1 : ∀ m, p (PrStep.getPR m) = false)
    (h2 : ∀ m bd, p (PrStep.editPRBody m bd) = false) :
    (link_issue_to_pr n i body).filter p = [] := by
  by_cases hc : containsSub (closes_text i) body <;>
    simp [link_issue_to_pr, hc, h1, h2]

/-- A fresh repository environment: no branch, no files, no failures, PR
number 101. -/
def okEnv : VcsEnv := ⟨fun _ => false, fun _ _ => false, fun _ => none, none, none, 101⟩

def sampleGen : CodeGeneration :=
  ⟨"feature/cart", ["cart.py"], ["test_cart.py"], "Add cart", "Implements the cart".data⟩

/-- Counterexample to C4: on a clean run, no CodeGenerationRecord is ever
inserted in status generated — the sole insert carries the terminal
status pr_created, there is no update at all, and the trace starts with
the branch existence check, before which no store operation occurs. -/
theorem cex_no_generated_status_record :
    recordInserts (create_pull_request okEnv 42 sampleGen).1
      = [PrStep.insertCodeGen (some 101) "pr_created"]
    ∧ recordUpdates (create_pull_request okEnv 42 sampleGen).1 = []
    ∧ (create_pull_request okEnv 42 sampleGen).1.take 1
      = [PrStep.checkBranch "feature/cart"] := by
  decide

/-- Claim C4, corrected.  Every code-generation attempt inserts exactly
one CodeGenerationRecord, and it is inserted at the end of the attempt,
never in status generated: with terminal status pr_created (and no
subsequent update) when the run succeeds, or in status failed followed by
exactly one update carrying the captured error when any step raises. -/
theorem code_generation_record_terminal_only
    (env : VcsEnv) (issue : Nat) (g : CodeGeneration) :
    (∀ st ∈ recordInserts (create_pull_request env issue g).1,
        st = PrStep.insertCodeGen (some env.pr_number) "pr_created"
        ∨ st = PrStep.insertCodeGen none "failed")
    ∧ (recordInserts (create_pull_request env issue g).1).length = 1
    ∧ ((create_pull_request env issue g).2.status = "pr_created" →
        recordUpdates (create_pull_request env issue g).1 = [])
    ∧ ((create_pull_request env issue g).2.status = "failed" →
        recordInserts (create_pull_request env issue g).1
          = [PrStep.insertCodeGen none "failed"]
        ∧ recordUpdates (create_pull_request env issue g).1
          = [PrStep.updateCodeGen "failed" ((create_pull_request env issue g).2.error_message)]) := by
  have hbi := branchSteps_filter env g.branch_name PrStep.isInsertRecord
    (fun a => rfl) (fun a => rfl)
  have hbu := branchSteps_filter env g.branch_name PrStep.isUpdateRecord
    (fun a => rfl) (fun a => rfl)
  have hfi := fun files => commit_files_filter_not_file env g.branch_name files
    PrStep.isInsertRecord (fun a b => rfl) (fun a b => rfl) (fun a b => rfl)
  have hfu := fun files => commit_files_filter_not_file env g.branch_name files
    PrStep.isUpdateRecord (fun a b => rfl) (fun a b => rfl) (fun a b => rfl)
  have hli := link_issue_to_pr_filter env.pr_number issue g.pr_description
    PrStep.isInsertRecord (fun m => rfl) (fun m bd => rfl)
  have hlu := link_issue_to_pr_filter env.pr_number issue g.pr_description
    PrStep.isUpdateRecord (fun m => rfl) (fun m bd => rfl)
  cases hbr : (if env.branch_exists g.branch_name then none else env.branch_error) with
  | some e =>
    simp [create_pull_request, hbr, recordInserts, recordUpdates, failSteps, failResult,
      List.filter_append, hbi, hbu, PrStep.isInsertRecord, PrStep.isUpdateRecord]
  | none =>
    cases hcf : commit_files env g.branch_name g.files_to_create with
    | mk fsteps fres =>
      have hf1 : List.filter PrStep.isInsertRecord fsteps = [] := by
        have h0 := hfi g.files_to_create
        rw [hcf] at h0
        simpa using h0
      have hf2 : List.filter PrStep.isUpdateRecord fsteps = [] := by
        have h0 := hfu g.files_to_create
        rw [hcf] at h0
        simpa using h0
      cases fres with
      | some e =>
        simp [create_pull_request, hbr, hcf, recordInserts, recordUpdates, failSteps,
          failResult, List.filter_append, hbi, hbu, hf1, hf2,
          PrStep.isInsertRecord, PrStep.isUpdateRecord]
      | none =>
        cases hct : commit_files env g.branch_name g.test_files with
        | mk tsteps tres =>
          have ht1 : List.filter PrStep.isInsertRecord tsteps = [] := by
            have h0 := hfi g.test_files
            rw [hct] at h0
            simpa using h0
          have ht2 : List.filter PrStep.isUpdateRecord tsteps = [] := by
            have h0 := hfu g.test_files
            rw [hct] at h0
            simpa using h0
          cases tres with
          | some e =>
            simp [create_pull_request, hbr, hcf, hct, recordInserts, recordUpdates,
              failSteps, failResult, List.filter_append, hbi, hbu, hf1, hf2, ht1, ht2,
              PrStep.isInsertRecord, PrStep.isUpdateRecord]
          | none =>
            cases hpe : env.pr_error with
            | some e =>
              simp [create_pull_request, hbr, hcf, hct, hpe, recordInserts, recordUpdates,
                failSteps, failResult, List.filter_append, hbi, hbu, hf1, hf2, ht1, ht2,
                PrStep.isInsertRecord, PrStep.isUpdateRecord]
            | none =>
              simp [create_pull_request, hbr, hcf, hct, hpe, recordInserts, recordUpdates,
                failSteps, failResult, List.filter_append, hbi, hbu, hli, hlu,
                hf1, hf2, ht1, ht2, PrStep.isInsertRecord, PrStep.isUpdateRecord]

/-- Witness for the corrected C4 on the clean concrete run. -/
theorem code_generation_record_terminal_only_witness :
    (recordInserts (create_pull_request okEnv 42 sampleGen).1).length = 1
    ∧ recordUpdates (create_pull_request okEnv 42 sampleGen).1 = [] := by
  have h := code_generation_record_terminal_only okEnv 42 sampleGen
  exact ⟨h.2.1, h.2.2.1 (by decide)⟩

theorem commit_files_success (env : VcsEnv) (branch : String) (files : List String)
    (h : ∀ p ∈ files, env.write_error p = none) :
    commit_files env branch files =
      ((files.map fun p =>
          [PrStep.getContents p branch,
           if env.file_exists p branch then PrStep.updateFile p branch
           else PrStep.createFile p branch]).flatten, none) := by
  induction files with
  | nil => rfl
  | cons p rest ih =>
    have hp : env.write_error p = none := h p (List.mem_cons_self p rest)
    have hrest := ih fun q hq => h q (List.mem_cons_of_mem p hq)
    by_cases hf : env.file_exists p branch <;>
      simp [commit_files, create_or_update_file, hp, hf, hrest]

/-- Claim C8: on a run where no call raises, materialization performs, in
program order: the branch existence check with creation only when absent,
one read-then-write (update when the file exists, create otherwise) per
implementation file, the same per test file, the pull-request opening,
and the issue link that edits the PR body only when "Closes #N" is not
already present, before the terminal record insert. -/
theorem materialize_operation_order
    (env : VcsEnv) (issue : Nat) (g : CodeGeneration)
    (hbe : env.branch_error = none) (hpe : env.pr_error = none)
    (hw : ∀ p ∈ g.files_to_create ++ g.test_files, env.write_error p = none) :
    create_pull_request env issue g =
      ((PrStep.checkBranch g.branch_name ::
          (if env.branch_exists g.branch_name then []
           else [PrStep.createBranch g.branch_name]))
        ++ (g.files_to_create.map fun p =>
              [PrStep.getContents p g.branch_name,
               if env.file_exists p g.branch_name then PrStep.updateFile p g.branch_name
               else PrStep.createFile p g.branch_name]).flatten
        ++ (g.test_files.map fun p =>
              [PrStep.getContents p g.branch_name,
               if env.file_exists p g.branch_name then PrStep.updateFile p g.branch_name
               else PrStep.createFile p g.branch_name]).flatten
        ++ [PrStep.openPR g.pr_title g.branch_name "main"]
        ++ (PrStep.getPR env.pr_number ::
            (if containsSub (closes_text issue) g.pr_description then []
             else [PrStep.editPRBody env.pr_number
                (g.pr_description ++ "\n\n".data ++ closes_text issue)]))
        ++ [PrStep.insertCodeGen (some env.pr_number) "pr_created",
            PrStep.insertAction "pr_created"],
       ⟨some env.pr_number, "pr_created", none⟩) := by
  have h1 := commit_files_success env g.branch_name g.files_to_create
    fun p hp => hw p (List.mem_append_left _ hp)
  have h2 := commit_files_success env g.branch_name g.test_files
    fun p hp => hw p (List.mem_append_right _ hp)
  by_cases hb : env.branch_exists g.branch_name <;>
    simp [create_pull_request, hb, hbe, hpe, h1, h2, link_issue_to_pr, branchSteps]

/-- Witness for C8: the full trace of the clean concrete run, in order. -/
theorem materialize_operation_order_witness :
    create_pull_request okEnv 42 sampleGen =
      ([PrStep.checkBranch "feature/cart", PrStep.createBranch "feature/cart",
        PrStep.getContents "cart.py" "feature/cart",
        PrStep.createFile "cart.py" "feature/cart",
        PrStep.getContents "test_cart.py" "feature/cart",
        PrStep.createFile "test_cart.py" "feature/cart",
        PrStep.openPR "Add cart" "feature/cart" "main",
        PrStep.getPR 101,
        PrStep.editPRBody 101 ("Implements the cart".data ++ "\n\n".data ++ closes_text 42),
        PrStep.insertCodeGen (some 101) "pr_created",
        PrStep.insertAction "pr_created"],
       ⟨some 101, "pr_created", none⟩) := by
  have h := materialize_operation_order okEnv 42 sampleGen rfl rfl fun p hp => rfl
  rw [h]
  decide

theorem commit_files_failure (env : VcsEnv) (branch : String)
    (done rest : List String) (f : String) (e : List Char)
    (hdone : ∀ p ∈ done, env.write_error p = none)
    (hf : env.write_error f = some e) :
    commit_files env branch (done ++ f :: rest)
      = ((done.map fun p =>
            [PrStep.getContents p branch,
             if env.file_exists p branch then PrStep.updateFile p branch
             else PrStep.createFile p branch]).flatten
          ++ [PrStep.getContents f branch], some e) := by
  induction done with
  | nil => simp [commit_files, create_or_update_file, hf]
  | cons p ds ih =>
    have hp := hdone p (List.mem_cons_self p ds)
    have hds := ih fun q hq => hdone q (List.mem_cons_of_mem p hq)
    by_cases hfe : env.file_exists p branch <;>
      simp [commit_files, create_or_update_file, hp, hfe, hds]

/-- Claim C9: when a file-write step raises after some implementation
files were already committed, the attempt ends with a
CodeGenerationRecord in status failed carrying the captured (non-empty)
error message, and no pull request is created — the trace contains no
successful PR opening at all. -/
theorem file_write_failure_yields_failed_record
    (env : VcsEnv) (issue : Nat) (g : CodeGeneration)
    (done rest : List String) (f : String) (e : List Char)
    (hbranch : env.branch_exists g.branch_name = true ∨ env.branch_error = none)
    (hsplit : g.files_to_create = done ++ f :: rest)
    (hprev : done ≠ [])
    (hdone : ∀ p ∈ done, env.write_error p = none)
    (hf : env.write_error f = some e)
    (he : e ≠ []) :
    (create_pull_request env issue g).2.status = "failed"
    ∧ (create_pull_request env issue g).2.error_message = some e
    ∧ e ≠ []
    ∧ (create_pull_request env issue g).2.pr_number = none
    ∧ (create_pull_request env issue g).1.filter PrStep.isOpenPR = []
    ∧ recordInserts (create_pull_request env issue g).1
      = [PrStep.insertCodeGen none "failed"]
    ∧ recordUpdates (create_pull_request env issue g).1
      = [PrStep.updateCodeGen "failed" (some e)] := by
  have hcf := commit_files_failure env g.branch_name done rest f e hdone hf
  rw [← hsplit] at hcf
  have hb : (if env.branch_exists g.branch_name then none else env.branch_error) = none := by
    rcases hbranch with h | h
    · simp [h]
    · by_cases hbe : env.branch_exists g.branch_name <;> simp [hbe, h]
  have hbo := branchSteps_filter env g.branch_name PrStep.isOpenPR
    (fun a => rfl) (fun a => rfl)
  have hbi := branchSteps_filter env g.branch_name PrStep.isInsertRecord
    (fun a => rfl) (fun a => rfl)
  have hbu := branchSteps_filter env g.branch_name PrStep.isUpdateRecord
    (fun a => rfl) (fun a => rfl)
  have hfo : ((done.map fun p =>
      [PrStep.getContents p g.branch_name,
       if env.file_exists p g.branch_name then PrStep.updateFile p g.branch_name
       else PrStep.createFile p g.branch_name]).flatten
        ++ [PrStep.getContents f g.branch_name]).filter PrStep.isOpenPR = [] := by
    have h0 := commit_files_filter_not_file env g.branch_name g.files_to_create
      PrStep.isOpenPR (fun a b => rfl) (fun a b => rfl) (fun a b => rfl)
    rw [hcf] at h0
    simpa using h0
  have hfi : ((done.map fun p =>
      [PrStep.getContents p g.branch_name,
       if env.file_exists p g.branch_name then PrStep.updateFile p g.branch_name
       else PrStep.createFile p g.branch_name]).flatten
        ++ [PrStep.getContents f g.branch_name]).filter PrStep.isInsertRecord = [] := by
    have h0 := commit_files_filter_not_file env g.branch_name g.files_to_create
      PrStep.isInsertRecord (fun a b => rfl) (fun a b => rfl) (fun a b => rfl)
    rw [hcf] at h0
    simpa using h0
  have hfu : ((done.map fun p =>
      [PrStep.getContents p g.branch_name,
       if env.file_exists p g.branch_name then PrStep.updateFile p g.branch_name
       else PrStep.createFile p g.branch_name]).flatten
        ++ [PrStep.getContents f g.branch_name]).filter PrStep.isUpdateRecord = [] := by
    have h0 := commit_files_filter_not_file env g.branch_name g.files_to_create
      PrStep.isUpdateRecord (fun a b => rfl) (fun a b => rfl) (fun a b => rfl)
    rw [hcf] at h0
    simpa using h0
  refine ⟨?_, ?_, he, ?_, ?_, ?_, ?_⟩ <;>
    simp [create_pull_request, hb, hcf, failSteps, failResult, recordInserts, recordUpdates,
      List.filter_append, hbo, hbi, hbu, hfo, hfi, hfu,
      PrStep.isOpenPR, PrStep.isInsertRecord, PrStep.isUpdateRecord] <;>
    (intro a ha; by_cases hfe : env.file_exists a g.branch_name <;> simp [hfe])

/-- Environment where writing b.py raises boom after a.py succeeded. -/
def failEnv : VcsEnv :=
  ⟨fun _ => false, fun _ _ => false,
   fun p => if p = "b.py" then some "boom".data else none, none, none, 101⟩

def failGen : CodeGeneration :=
  ⟨"feature/cart", ["a.py", "b.py"], [], "Add cart", "body".data⟩

/-- Witness for C9: the second of two implementation files fails to
write; the record ends failed with the raised message and no pull request
is opened. -/
theorem file_write_failure_yields_failed_record_witness :
    (create_pull_request failEnv 42 failGen).2.status = "failed"
    ∧ (create_pull_request failEnv 42 failGen).2.error_message = some "boom".data
    ∧ (create_pull_request failEnv 42 failGen).1.filter PrStep.isOpenPR = [] := by
  have h := file_write_failure_yields_failed_record failEnv 42 failGen
    ["a.py"] [] "b.py" "boom".data (Or.inr rfl) rfl (by decide) (by decide)
    (by decide) (by decide)
  exact ⟨h.1, h.2.1, h.2.2.2.2.1⟩
